import Mathlib

/-!
Shallow embedding of the HyphoteSys research-assistant pipeline
(src/core.py, src/agents.py, src/session_manager.py, src/cli_terminal.py).

Modelling conventions:
* Python dicts become association lists with Python-dict semantics:
  assignment replaces the value in place when the key exists and appends
  at the end otherwise, preserving insertion order.
* ISO-8601 timestamp strings compare chronologically, so timestamps are
  modelled as natural numbers and datetime.now() becomes an explicit
  parameter.
* Python floats in this code are small exact decimals (0.92, 0.95, ...);
  they are modelled as rationals, and round(x, n) as round-half-even on
  rationals, which agrees with the float computation at every value the
  program produces here.
* External effects (OpenAI calls, the arXiv HTTP request, the document
  parser) are oracle parameters: a call that may raise is a function into
  Except String. An Except.error value is the exception the surrounding
  try/except catches.
* File persistence (sessions.json, project files) is whole-file rewrite of
  the in-memory state; the embedding carries that state explicitly and
  does not model the disk.
-/

/-- Python dict assignment d[k] = v: replace in place when present, else
append, keeping insertion order (src: dict semantics used throughout
session_manager.py). -/
def dinsert (k : String) (v : α) : List (String × α) → List (String × α)
  | [] => [(k, v)]
  | (k₁, v₁) :: rest =>
      if k₁ = k then (k, v) :: rest else (k₁, v₁) :: dinsert k v rest

/-- Python dict lookup d.get(k): first binding of the key, if any. -/
def dget (k : String) : List (String × α) → Option α
  | [] => none
  | (k₁, v₁) :: rest => if k₁ = k then some v₁ else dget k rest

/-- Python del d[k]: removes the first binding of the key. -/
def ddel (k : String) : List (String × α) → List (String × α)
  | [] => []
  | (k₁, v₁) :: rest => if k₁ = k then rest else (k₁, v₁) :: ddel k rest

/-- One paper record produced by SearchAgent (src/agents.py, keys id,
title, abstract, url, authors). -/
structure Paper where
  pid : String
  title : String
  abstract : String
  url : String
  authors : List String
deriving Repr, DecidableEq

/-- One parsed-file record produced by FileAgent (src/agents.py 80-85). -/
structure ParsedFile where
  filename : String
  content : String
  pages : Nat
  word_count : Nat
deriving Repr, DecidableEq

/-- Pipeline summary built by MapAgent._create_pipeline_summary
(src/agents.py 521-528). -/
structure PipelineSummary where
  total_agents : Nat
  completed_agents : Nat
  completion_percentage : Rat
  last_executed : Option Nat
deriving Repr, DecidableEq

/-- The metadata dictionary attached to a RichOutput. Each agent
populates its own keys; absent keys take the defaults the readers use
via dict.get (src/agents.py, src/session_manager.py 108-113). -/
structure Metadata where
  keywords : List String := []
  -- source key name: variables (a reserved word here)
  vars : List (String × List String) := []
  summary : String := ""
  considerations : List String := []
  papers : List Paper := []
  search_terms : List String := []
  parsed_files : List ParsedFile := []
  error : Option String := none
  mermaid_diagram : String := ""
  completed_agents : List String := []
  pipeline_summary : Option PipelineSummary := none
deriving Repr, DecidableEq

/-- RichOutput (src/core.py 11-24): the uniform envelope every agent
returns. timestamp defaults to now at construction; agents never pass
one, so each execute embedding receives now as a parameter. -/
structure RichOutput where
  agent : String
  result : String
  confidence : Rat
  sources : List String
  warnings : List String
  metadata : Option Metadata := none
  timestamp : Nat := 0
deriving Repr, DecidableEq

/-- SessionMemory (src/core.py 26-42). -/
structure SessionMemory where
  focus : String := ""
  keywords : List String := []
  -- source key name: variables (a reserved word here)
  vars : List (String × List String) := []
  paper_count : Nat := 0
  last_update : Nat := 0
  agent_progress : List (String × String) := []
deriving Repr, DecidableEq

/-- ResearcherProfile (src/core.py 44-57); only carried through the
session records, never inspected by the operations the claims touch. -/
structure ResearcherProfile where
  name : String := ""
  email : String := ""
  affiliation : String := ""
  research_focus : String := ""
  orcid : Option String := none
deriving Repr, DecidableEq

/-- One session record (src/session_manager.py 42-51). -/
structure Session where
  id : String
  title : String
  research_question : String
  created_at : Nat
  updated_at : Nat
  session_memory : SessionMemory
  agent_results : List (String × RichOutput)
  researcher_profile : ResearcherProfile := {}
  project_id : Option String := none
deriving Repr, DecidableEq

/-- One mirrored project record (src/core.py 87-96). -/
structure Project where
  id : String
  title : String
  research_question : String
  created_at : Nat
  updated_at : Nat
  agent_results : List (String × RichOutput)
deriving Repr, DecidableEq

/-- In-memory state of SessionManager plus its ProjectManager: the
sessions registry (sessions.json) and the project files. -/
structure StoreState where
  sessions : List (String × Session)
  projects : List (String × Project)
deriving Repr, DecidableEq

/-- Round half to even on an exact rational, the rounding Python round
uses; the intermediate float arithmetic is exact at every value this
program rounds. -/
def roundHalfEven (y : Rat) : Int :=
  let f := ⌊y⌋
  let frac := y - (f : Rat)
  if frac < 1/2 then f
  else if 1/2 < frac then f + 1
  else if f % 2 = 0 then f else f + 1

/-- Python round(x, 2). -/
def round2 (x : Rat) : Rat := (roundHalfEven (x * 100) : Rat) / 100

/-- Python round(x, 1). -/
def round1 (x : Rat) : Rat := (roundHalfEven (x * 10) : Rat) / 10

/-! Agents (src/agents.py). External calls are oracle parameters. -/

/-- The structured JSON object ThesisAgent asks the LLM for
(src/agents.py 30-40). -/
structure ThesisData where
  keywords : List String := []
  vars : List (String × List String) := []
  summary : String := ""
  considerations : List String := []
deriving Repr, DecidableEq

namespace ThesisAgent

/-- ThesisAgent.execute (src/agents.py 16-67): one LLM call on the
research question; an oracle error is the caught exception. -/
def execute (llm : String → Except String ThesisData)
    (research_question : String) (now : Nat) : RichOutput :=
  match llm research_question with
  | Except.ok d =>
      { agent := "ThesisAgent",
        result := "Successfully extracted research variables and keywords",
        confidence := 92/100,
        sources := ["OpenAI analysis"],
        warnings := d.considerations,
        metadata := some { keywords := d.keywords, vars := d.vars,
                           summary := d.summary,
                           considerations := d.considerations },
        timestamp := now }
  | Except.error e =>
      { agent := "ThesisAgent",
        result := "Error analyzing thesis: " ++ e,
        confidence := 0,
        sources := [],
        warnings := ["Analysis failed - check OpenAI API key"],
        metadata := some { error := some e },
        timestamp := now }

end ThesisAgent

/-- Python os.path.basename restricted to forward slashes. -/
def basename (p : String) : String := ((p.splitOn "/").getLastD p)

/-- Python str.split() with no argument: whitespace runs, empty pieces
dropped. -/
def pyWords (s : String) : List String :=
  (s.split Char.isWhitespace).filter (fun w => w ≠ "")

namespace FileAgent

/-- The per-file loop of FileAgent.execute (src/agents.py 76-87):
successes become ParsedFile records, failures become warnings, both in
input order. -/
def processFiles (parse : String → Except String String) :
    List String → List ParsedFile × List String
  | [] => ([], [])
  | p :: rest =>
      let acc := processFiles parse rest
      match parse p with
      | Except.ok content =>
          ({ filename := basename p, content := content,
             pages := content.length / 500,
             word_count := (pyWords content).length } :: acc.1, acc.2)
      | Except.error e =>
          (acc.1, ("Failed to parse " ++ p ++ ": " ++ e) :: acc.2)

/-- FileAgent.execute (src/agents.py 72-96). -/
def execute (parse : String → Except String String)
    (file_paths : List String) (now : Nat) : RichOutput :=
  let acc := processFiles parse file_paths
  { agent := "FileAgent",
    result := "Successfully parsed " ++ toString acc.1.length ++ " files",
    confidence := if acc.1.isEmpty then 1/10 else 95/100,
    sources := acc.1.map (fun f => f.filename),
    warnings := acc.2,
    metadata := some { parsed_files := acc.1 },
    timestamp := now }

end FileAgent

/-- The query parameters SearchAgent._search_arxiv sends to the arXiv
API (src/agents.py 150-156). -/
structure ArxivParams where
  search_query : String
  start : Nat
  max_results : Nat
  sortBy : String
  sortOrder : String
deriving Repr, DecidableEq

/-- Default of the max_results argument of SearchAgent.execute
(src/agents.py 123). -/
def defaultMaxResults : Nat := 10

namespace SearchAgent

/-- The boolean query of src/agents.py 148: each keyword quoted as a
phrase with the all: field prefix, joined with AND. -/
def searchTerms (keywords : List String) : String :=
  String.intercalate " AND "
    (keywords.map (fun k => "all:\"" ++ k ++ "\""))

/-- The full parameter record of the single arXiv request
(src/agents.py 150-156). -/
def arxivParams (keywords : List String) (max_results : Nat) : ArxivParams :=
  { search_query := searchTerms keywords,
    start := 0,
    max_results := max_results,
    sortBy := "relevance",
    sortOrder := "descending" }

/-- SearchAgent.execute (src/agents.py 123-143): one network call via
the oracle; an oracle error is the caught requests exception. -/
def execute (net : ArxivParams → Except String (List Paper))
    (keywords : List String) (max_results : Nat) (now : Nat) : RichOutput :=
  match net (arxivParams keywords max_results) with
  | Except.ok papers =>
      { agent := "SearchAgent",
        result := "Found " ++ toString papers.length ++
          " relevant papers from ArXiv",
        confidence := if papers.isEmpty then 3/10 else 9/10,
        sources := papers.map (fun p => p.url),
        warnings := if papers.isEmpty then
          ["No papers found for search terms"] else [],
        metadata := some { papers := papers, search_terms := keywords },
        timestamp := now }
  | Except.error e =>
      { agent := "SearchAgent",
        result := "Error searching ArXiv: " ++ e,
        confidence := 0,
        sources := [],
        warnings := ["ArXiv search failed"],
        metadata := some { error := some e, search_terms := keywords },
        timestamp := now }

end SearchAgent

namespace MapAgent

/-- The styling line appended per completed agent
(src/agents.py 498-512). -/
def completedNode (agent : String) : String :=
  if agent = "thesis" then "\n    B:::completed"
  else if agent = "file" then "\n    C:::completed"
  else if agent = "search" then "\n    D:::completed"
  else if agent = "reader" then "\n    E:::completed"
  else if agent = "trend" then "\n    F:::completed"
  else if agent = "hypothesis" then "\n    G:::completed"
  else if agent = "map" then "\n    H:::completed"
  else ""

/-- The fixed flowchart skeleton (src/agents.py 486-495). -/
def mermaidHeader : String :=
  "graph TD\n    A[Research Question] --> B[Thesis Analysis]\n    B --> C[File Processing]\n    B --> D[Literature Search]\n    C --> E[Paper Summarization]\n    D --> E\n    E --> F[Trend Analysis]\n    F --> G[Hypothesis Generation]\n    G --> H[Research Pipeline]\n    "

/-- The class definitions appended last (src/agents.py 514-517). -/
def mermaidFooter : String :=
  "\n    \n    classDef completed fill:#10b981,stroke:#065f46,color:#fff\n    classDef pending fill:#6b7280,stroke:#374151,color:#fff"

/-- MapAgent._generate_mermaid_diagram (src/agents.py 482-519). -/
def generateMermaidDiagram (agent_results : List (String × RichOutput)) :
    String :=
  mermaidHeader ++
    String.join ((agent_results.map (fun kv => kv.1)).map completedNode) ++
    mermaidFooter

/-- The message of the AttributeError raised when load_project returns
None and .get is taken on it; its exact text is irrelevant downstream. -/
def noneTypeGetError : String := "NoneType object has no attribute get"

/-- MapAgent._create_pipeline_summary (src/agents.py 521-528); the max
over the nonempty timestamp list is a fold from 0. -/
def createPipelineSummary (agent_results : List (String × RichOutput)) :
    PipelineSummary :=
  { total_agents := 7,
    completed_agents := agent_results.length,
    completion_percentage :=
      round1 (((agent_results.length : Rat) / 7) * 100),
    last_executed :=
      if agent_results.isEmpty then none
      else some ((agent_results.map (fun kv => kv.2.timestamp)).foldr max 0) }

/-- MapAgent.execute (src/agents.py 452-480): pure derivation over the
project record; a missing project raises inside the try and is caught. -/
def execute (loadProject : String → Option Project)
    (project_id : String) (now : Nat) : RichOutput :=
  match loadProject project_id with
  | none =>
      { agent := "MapAgent",
        result := "Error generating map: " ++ noneTypeGetError,
        confidence := 0,
        sources := [],
        warnings := ["Map generation failed"],
        metadata := some { error := some noneTypeGetError },
        timestamp := now }
  | some project =>
      let agent_results := project.agent_results
      { agent := "MapAgent",
        result := "Generated research pipeline map",
        confidence := 9/10,
        sources := ["All agent results"],
        warnings := [],
        metadata := some
          { mermaid_diagram := generateMermaidDiagram agent_results,
            completed_agents := agent_results.map (fun kv => kv.1),
            pipeline_summary := some (createPipelineSummary agent_results) },
        timestamp := now }

end MapAgent

/-! Session store (src/session_manager.py). -/

/-- One row of the list_sessions summary (src/session_manager.py 71-77). -/
structure SessionSummary where
  id : String
  title : String
  research_question : String
  updated_at : Nat
  agent_count : Nat
deriving Repr, DecidableEq

/-- A full exported snapshot: the copied session record plus the export
stamp fields (src/session_manager.py 135-142). -/
structure Snapshot where
  data : Session
  export_timestamp : Nat
  export_version : String
deriving Repr, DecidableEq

/-- The record returned by get_session_statistics
(src/session_manager.py 188-202). -/
structure SessionStats where
  total_agents : Nat
  completed_agents : Nat
  completion_percentage : Rat
  average_confidence : Rat
  last_update : Nat
  total_sources : Nat
  total_warnings : Nat
deriving Repr, DecidableEq

namespace SessionManager

/-- SessionManager.get_session (src/session_manager.py 63-65). -/
def get_session (st : StoreState) (session_id : String) : Option Session :=
  dget session_id st.sessions

/-- Stable insertion step of the descending sort on updated_at; a later
summary overtakes an earlier one only when its key is strictly larger,
which is exactly the stable behavior of Python sorted with reverse set. -/
def insertByUpdatedDesc (x : SessionSummary) :
    List SessionSummary → List SessionSummary
  | [] => [x]
  | y :: ys =>
      if y.updated_at ≤ x.updated_at then x :: y :: ys
      else y :: insertByUpdatedDesc x ys

/-- The stable descending sort applied by list_sessions
(src/session_manager.py 79). -/
def sortByUpdatedDesc (l : List SessionSummary) : List SessionSummary :=
  l.foldr insertByUpdatedDesc []

/-- SessionManager.list_sessions (src/session_manager.py 67-79):
summaries in registry insertion order, then sorted by updated_at
descending. -/
def list_sessions (st : StoreState) : List SessionSummary :=
  sortByUpdatedDesc (st.sessions.map (fun kv =>
    { id := kv.1,
      title := kv.2.title,
      research_question := kv.2.research_question,
      updated_at := kv.2.updated_at,
      agent_count := kv.2.agent_results.length }))

/-- SessionManager.delete_session (src/session_manager.py 88-94). -/
def delete_session (st : StoreState) (session_id : String) :
    Bool × StoreState :=
  if (dget session_id st.sessions).isSome then
    (true, { st with sessions := ddel session_id st.sessions })
  else
    (false, st)

/-- ProjectManager.save_agent_result (src/core.py 139-144) followed by
save_project, which refreshes the project updated_at. -/
def pm_save_agent_result (projects : List (String × Project)) (now : Nat)
    (project_id agent_name : String) (result : RichOutput) :
    List (String × Project) :=
  match dget project_id projects with
  | none => projects
  | some project =>
      dinsert project_id
        { project with
            agent_results := dinsert agent_name result project.agent_results,
            updated_at := now }
        projects

/-- The memory re-derivation inside save_agent_result
(src/session_manager.py 102-115): progress marker and last_update
always refresh; thesis and search metadata re-derive their fields. -/
def derive_memory (memory : SessionMemory) (now : Nat)
    (agent_name : String) (result : RichOutput) : SessionMemory :=
  let memory := { memory with
    last_update := now,
    agent_progress := dinsert agent_name "completed"
      memory.agent_progress }
  if agent_name = "thesis" ∧ result.metadata.isSome then
    let md := result.metadata.getD {}
    { memory with
        keywords := md.keywords
        focus := md.summary
        vars := md.vars }
  else if agent_name = "search" ∧ result.metadata.isSome then
    { memory with
        paper_count := (result.metadata.getD {}).papers.length }
  else memory

/-- The session record after the in-place mutations of
save_agent_result (src/session_manager.py 99-115). -/
def updated_session (session : Session) (now : Nat)
    (agent_name : String) (result : RichOutput) : Session :=
  { session with
      agent_results := dinsert agent_name result session.agent_results,
      updated_at := now,
      session_memory :=
        derive_memory session.session_memory now agent_name result }

/-- SessionManager.save_agent_result (src/session_manager.py 96-121):
upsert the result, refresh updated_at, re-derive the memory fields, then
mirror into the linked project when one exists. -/
def save_agent_result (st : StoreState) (now : Nat)
    (session_id agent_name : String) (result : RichOutput) : StoreState :=
  match dget session_id st.sessions with
  | none => st
  | some session =>
      let session := updated_session session now agent_name result
      let st := { st with sessions := dinsert session_id session st.sessions }
      match session.project_id with
      | none => st
      | some pid =>
          { st with projects :=
              pm_save_agent_result st.projects now pid agent_name result }

/-- SessionManager.get_agent_result (src/session_manager.py 123-127). -/
def get_agent_result (st : StoreState) (session_id agent_name : String) :
    Option RichOutput :=
  (dget session_id st.sessions).bind
    (fun session => dget agent_name session.agent_results)

/-- SessionManager.export_session (src/session_manager.py 135-142): a
copy of the full record plus export stamp and version. -/
def export_session (st : StoreState) (now : Nat) (session_id : String) :
    Option Snapshot :=
  (dget session_id st.sessions).map (fun session =>
    { data := session, export_timestamp := now, export_version := "1.0" })

/-- SessionManager.import_session (src/session_manager.py 144-164). The
uuid4 call is modelled as the explicit fresh identifier new_session_id;
both timestamps are set to the import time and the snapshot record
carries no project link into the new session. -/
def import_session (st : StoreState) (now : Nat) (new_session_id : String)
    (snap : Snapshot) : String × StoreState :=
  let clean_data : Session :=
    { id := new_session_id,
      title := "[IMPORTED] " ++ snap.data.title,
      research_question := snap.data.research_question,
      created_at := now,
      updated_at := now,
      session_memory := snap.data.session_memory,
      agent_results := snap.data.agent_results,
      researcher_profile := snap.data.researcher_profile,
      project_id := none }
  (new_session_id,
   { st with sessions := dinsert new_session_id clean_data st.sessions })

/-- SessionManager.get_session_statistics (src/session_manager.py
170-202); the missing-session empty dict becomes none. Every stored
result is the asdict of a RichOutput and therefore passes the
isinstance and key filters of lines 181-184 and 194-201. -/
def get_session_statistics (st : StoreState) (session_id : String) :
    Option SessionStats :=
  match dget session_id st.sessions with
  | none => none
  | some session =>
      let agent_results := session.agent_results
      let total_agents : Nat := 7
      let completed_agents := agent_results.length
      let confidence_scores := agent_results.map (fun kv => kv.2.confidence)
      let avg_confidence : Rat :=
        if confidence_scores.isEmpty then 0
        else confidence_scores.sum / (confidence_scores.length : Rat)
      some
        { total_agents := total_agents,
          completed_agents := completed_agents,
          completion_percentage :=
            round1 (((completed_agents : Rat) / (total_agents : Rat)) * 100),
          average_confidence := round2 avg_confidence,
          last_update := session.updated_at,
          total_sources :=
            (agent_results.map (fun kv => kv.2.sources.length)).sum,
          total_warnings :=
            (agent_results.map (fun kv => kv.2.warnings.length)).sum }

end SessionManager

/-- HyphoteSysTerminal.run_agent specialised to the search agent
(src/cli_terminal.py 258-319, search branch 293-303): a missing session,
a missing stored thesis result, or an empty keyword list each abort the
command with a printed message and produce no Output and no state
change; otherwise SearchAgent.execute runs once with the default
max_results and its Output is saved and returned. -/
def runSearchCommand (st : StoreState) (current_session_id : String)
    (net : ArxivParams → Except String (List Paper)) (now : Nat) :
    Option RichOutput × StoreState :=
  match SessionManager.get_session st current_session_id with
  | none => (none, st)
  | some session =>
      match SessionManager.get_agent_result st session.id "thesis" with
      | none => (none, st)
      | some thesis_result =>
          let keywords := (thesis_result.metadata.getD {}).keywords
          if keywords.isEmpty then (none, st)
          else
            let result :=
              SearchAgent.execute net keywords defaultMaxResults now
            (some result,
             SessionManager.save_agent_result st now session.id "search"
               result)

/-! Claim-side definitions, written from the wording of the
specification so the code embeddings can be compared against them. -/

/-- The query the spec describes: every keyword quoted as a phrase in
the all: field, all of them joined by AND into one boolean query. -/
def andQuery : List String → String
  | [] => ""
  | [k] => "all:\"" ++ k ++ "\""
  | k :: rest => "all:\"" ++ k ++ "\"" ++ " AND " ++ andQuery rest

/-- A no-op default (fallback) Output of this codebase: every
missing-prerequisite or caught-error fallback in src/agents.py carries
confidence 0.0. -/
def isFallback (r : RichOutput) : Bool := r.confidence == 0

/-- The mean the spec sentence describes when read as excluding fallback
Outputs: average over the confidences of the non-fallback stored
results, zero when that set is empty. -/
def averageConfidenceExclFallback
    (results : List (String × RichOutput)) : Rat :=
  let scores := (results.filter (fun kv => ! isFallback kv.2)).map
    (fun kv => kv.2.confidence)
  if scores.isEmpty then 0 else scores.sum / (scores.length : Rat)

/-- The unrounded mean over all stored results, fallback Outputs
included, zero when the result map is empty. -/
def averageConfidenceAll (results : List (String × RichOutput)) : Rat :=
  let scores := results.map (fun kv => kv.2.confidence)
  if scores.isEmpty then 0 else scores.sum / (scores.length : Rat)

/-! Concrete records used by the closed counterexamples and the
witnesses. -/

/-- A well-formed arXiv paper record. -/
def samplePaper : Paper :=
  { pid := "2401.00001", title := "T", abstract := "A",
    url := "http://arxiv.org/abs/2401.00001", authors := ["X"] }

/-- A session that has not run any agent yet. -/
def emptySession : Session :=
  { id := "s1", title := "demo", research_question := "why",
    created_at := 1, updated_at := 2, session_memory := {},
    agent_results := [] }

/-- A registry holding only emptySession. -/
def emptyState : StoreState :=
  { sessions := [("s1", emptySession)], projects := [] }

/-- The Output ThesisAgent returns when its LLM call raises. -/
def fallbackThesisOutput : RichOutput :=
  ThesisAgent.execute (fun _ => Except.error "connection refused") "why" 3

/-- The Output SearchAgent returns on a successful one-paper response. -/
def strongSearchOutput : RichOutput :=
  SearchAgent.execute (fun _ => Except.ok [samplePaper]) ["k"]
    defaultMaxResults 4

/-- A session holding one fallback result and one strong result. -/
def mixedSession : Session :=
  { emptySession with
      agent_results := [("thesis", fallbackThesisOutput),
                        ("search", strongSearchOutput)] }

/-- A registry holding only mixedSession. -/
def mixedState : StoreState :=
  { sessions := [("s1", mixedSession)], projects := [] }

/-- A document parser that fails on exactly one of two files. -/
def halfFailingParse : String → Except String String :=
  fun p => if p = "b.pdf" then Except.error "bad xref table"
           else Except.ok "parsed text"

/-! Helper lemmas about the dict operations. -/

theorem dget_dinsert_self (k : String) (v : α) (d : List (String × α)) :
    dget k (dinsert k v d) = some v := by
  induction d with
  | nil => simp [dinsert, dget]
  | cons hd tl ih =>
      obtain ⟨k₁, v₁⟩ := hd
      by_cases h : k₁ = k
      · simp [dinsert, dget, h]
      · simp [dinsert, dget, h, ih]

theorem dget_dinsert_ne (k k₂ : String) (v : α) (d : List (String × α))
    (h : k₂ ≠ k) : dget k₂ (dinsert k v d) = dget k₂ d := by
  induction d with
  | nil => simp [dinsert, dget, Ne.symm h]
  | cons hd tl ih =>
      obtain ⟨k₁, v₁⟩ := hd
      by_cases h₁ : k₁ = k
      · subst h₁
        simp [dinsert, dget, Ne.symm h]
      · by_cases h₂ : k₁ = k₂
        · subst h₂
          simp [dinsert, dget, h₁]
        · simp [dinsert, dget, h₁, h₂, ih]

theorem dget_eq_none_iff (k : String) (d : List (String × α)) :
    dget k d = none ↔ k ∉ d.map Prod.fst := by
  induction d with
  | nil => simp [dget]
  | cons hd tl ih =>
      obtain ⟨k₁, v₁⟩ := hd
      by_cases h : k₁ = k
      · subst h
        simp [dget]
      · simp [dget, h, ih, Ne.symm h]

theorem mem_keys_dinsert (a k : String) (v : α) (d : List (String × α)) :
    a ∈ (dinsert k v d).map Prod.fst ↔ a = k ∨ a ∈ d.map Prod.fst := by
  induction d with
  | nil => simp [dinsert]
  | cons hd tl ih =>
      obtain ⟨k₁, v₁⟩ := hd
      by_cases h : k₁ = k
      · subst h
        have hrw : dinsert k₁ v ((k₁, v₁) :: tl) = (k₁, v) :: tl := by
          simp [dinsert]
        rw [hrw]
        simp only [List.map_cons, List.mem_cons]
        tauto
      · have hrw : dinsert k v ((k₁, v₁) :: tl) =
            (k₁, v₁) :: dinsert k v tl := by
          simp [dinsert, h]
        rw [hrw]
        simp only [List.map_cons, List.mem_cons, ih]
        tauto

theorem nodup_keys_dinsert (k : String) (v : α) (d : List (String × α))
    (hnd : (d.map Prod.fst).Nodup) :
    ((dinsert k v d).map Prod.fst).Nodup := by
  induction d with
  | nil => simp [dinsert]
  | cons hd tl ih =>
      obtain ⟨k₁, v₁⟩ := hd
      simp only [List.map_cons, List.nodup_cons] at hnd
      by_cases h : k₁ = k
      · subst h
        have hrw : dinsert k₁ v ((k₁, v₁) :: tl) = (k₁, v) :: tl := by
          simp [dinsert]
        rw [hrw]
        simp only [List.map_cons, List.nodup_cons]
        exact hnd
      · have hrw : dinsert k v ((k₁, v₁) :: tl) =
            (k₁, v₁) :: dinsert k v tl := by
          simp [dinsert, h]
        rw [hrw]
        simp only [List.map_cons, List.nodup_cons]
        refine ⟨?_, ih hnd.2⟩
        intro hmem
        rcases (mem_keys_dinsert k₁ k v tl).mp hmem with h₁ | h₁
        · exact h h₁
        · exact hnd.1 h₁

theorem dget_ddel_self (k : String) (d : List (String × α))
    (hnd : (d.map Prod.fst).Nodup) : dget k (ddel k d) = none := by
  induction d with
  | nil => simp [ddel, dget]
  | cons hd tl ih =>
      obtain ⟨k₁, v₁⟩ := hd
      simp only [List.map_cons, List.nodup_cons] at hnd
      by_cases h : k₁ = k
      · subst h
        simp only [ddel, if_pos rfl]
        exact (dget_eq_none_iff k₁ tl).mpr hnd.1
      · simp [ddel, dget, h, ih hnd.2]

theorem dget_ddel_ne (k k₂ : String) (d : List (String × α))
    (h : k₂ ≠ k) : dget k₂ (ddel k d) = dget k₂ d := by
  induction d with
  | nil => simp [ddel]
  | cons hd tl ih =>
      obtain ⟨k₁, v₁⟩ := hd
      by_cases h₁ : k₁ = k
      · subst h₁
        simp [ddel, dget, Ne.symm h]
      · by_cases h₂ : k₁ = k₂
        · subst h₂
          simp [ddel, dget, h₁]
        · simp [ddel, dget, h₁, h₂, ih]

theorem dinsert_fresh (k : String) (v : α) (d : List (String × α))
    (h : dget k d = none) : dinsert k v d = d ++ [(k, v)] := by
  induction d with
  | nil => simp [dinsert]
  | cons hd tl ih =>
      obtain ⟨k₁, v₁⟩ := hd
      by_cases h₁ : k₁ = k
      · simp [dget, h₁] at h
      · simp only [dget, h₁, if_false] at h
        simp [dinsert, h₁, ih h]

theorem countP_key_dinsert (k : String) (v : α) (d : List (String × α))
    (hnd : (d.map Prod.fst).Nodup) :
    ((dinsert k v d).countP (fun kv => kv.1 == k)) = 1 := by
  induction d with
  | nil => simp [dinsert, List.countP_cons]
  | cons hd tl ih =>
      obtain ⟨k₁, v₁⟩ := hd
      simp only [List.map_cons, List.nodup_cons] at hnd
      by_cases h : k₁ = k
      · subst h
        have hrw : dinsert k₁ v ((k₁, v₁) :: tl) = (k₁, v) :: tl := by
          simp [dinsert]
        rw [hrw]
        have hz : (tl.countP (fun kv => kv.1 == k₁)) = 0 := by
          rw [List.countP_eq_zero]
          intro a ha
          have hmem : a.1 ∈ tl.map Prod.fst := List.mem_map_of_mem Prod.fst ha
          simp only [beq_iff_eq]
          intro hEq
          exact hnd.1 (hEq ▸ hmem)
        simp [List.countP_cons, hz]
      · have hrw : dinsert k v ((k₁, v₁) :: tl) =
            (k₁, v₁) :: dinsert k v tl := by
          simp [dinsert, h]
        rw [hrw]
        simp [List.countP_cons, ih hnd.2, h]

/-! Helper lemmas about the store operations, the query builder, the
file batch loop and the summary sort. -/

theorem save_agent_result_sessions (st : StoreState) (now : Nat)
    (sid name : String) (r : RichOutput) (s : Session)
    (hs : dget sid st.sessions = some s) :
    (SessionManager.save_agent_result st now sid name r).sessions =
      dinsert sid (SessionManager.updated_session s now name r)
        st.sessions := by
  simp only [SessionManager.save_agent_result, hs]
  cases hp : (SessionManager.updated_session s now name r).project_id <;>
    simp [hp]

theorem intercalate_go_append (s : String) (l : List String) :
    ∀ (acc x : String),
      String.intercalate.go (acc ++ x) s l =
        acc ++ String.intercalate.go x s l := by
  induction l with
  | nil =>
      intro acc x
      rfl
  | cons a as ih =>
      intro acc x
      simp only [String.intercalate.go]
      rw [String.append_assoc, String.append_assoc, ih]
      rw [← String.append_assoc x s a]

theorem searchTerms_eq_andQuery (kws : List String) :
    SearchAgent.searchTerms kws = andQuery kws := by
  induction kws with
  | nil => rfl
  | cons k rest ih =>
      cases rest with
      | nil => rfl
      | cons k₂ rest₂ =>
          have step : SearchAgent.searchTerms (k :: k₂ :: rest₂) =
              ("all:\"" ++ k ++ "\"" ++ " AND ") ++
                SearchAgent.searchTerms (k₂ :: rest₂) := by
            simp only [SearchAgent.searchTerms, List.map_cons,
              String.intercalate, String.intercalate.go]
            rw [← intercalate_go_append " AND "]
          rw [step, ih]
          show _ = ("all:\"" ++ k ++ "\"" ++ " AND ") ++ andQuery (k₂ :: rest₂)
          rfl

theorem processFiles_fst_filenames (parse : String → Except String String)
    (paths : List String) :
    (FileAgent.processFiles parse paths).1.map ParsedFile.filename =
      (paths.filter (fun p => (parse p).isOk)).map basename := by
  induction paths with
  | nil => rfl
  | cons p rest ih =>
      cases hp : parse p with
      | ok c =>
          simp [FileAgent.processFiles, hp, Except.isOk, Except.toBool, ih]
      | error e =>
          simp [FileAgent.processFiles, hp, Except.isOk, Except.toBool, ih]

theorem processFiles_snd_length (parse : String → Except String String)
    (paths : List String) :
    (FileAgent.processFiles parse paths).2.length =
      (paths.filter (fun p => !(parse p).isOk)).length := by
  induction paths with
  | nil => rfl
  | cons p rest ih =>
      cases hp : parse p with
      | ok c =>
          simp [FileAgent.processFiles, hp, Except.isOk, Except.toBool, ih]
      | error e =>
          simp [FileAgent.processFiles, hp, Except.isOk, Except.toBool, ih]

theorem sortByUpdatedDesc_append_max (x : SessionSummary) :
    ∀ (l : List SessionSummary),
      (∀ y ∈ l, y.updated_at < x.updated_at) →
      ∃ t, SessionManager.sortByUpdatedDesc (l ++ [x]) = x :: t := by
  intro l
  induction l with
  | nil =>
      intro h
      exact ⟨[], rfl⟩
  | cons a as ih =>
      intro h
      obtain ⟨t, ht⟩ := ih (fun y hy => h y (List.mem_cons_of_mem a hy))
      have hstep : SessionManager.sortByUpdatedDesc ((a :: as) ++ [x]) =
          SessionManager.insertByUpdatedDesc a
            (SessionManager.sortByUpdatedDesc (as ++ [x])) := rfl
      have hlt : a.updated_at < x.updated_at := h a (List.mem_cons_self a as)
      refine ⟨SessionManager.insertByUpdatedDesc a t, ?_⟩
      rw [hstep, ht]
      simp only [SessionManager.insertByUpdatedDesc]
      rw [if_neg (Nat.not_le.mpr hlt)]

/-! Claims. -/

/-- C1 (amended): for every session with no stored thesis result the
search command refuses to run: it produces no Output at all, leaves the
store unchanged, and its outcome is independent of the network oracle,
so no network call is observable. The refusal is a printed message in
the terminal, not a zero-confidence warning Output. -/
theorem search_refuses_without_thesis (st : StoreState) (sid : String)
    (s : Session) (now : Nat)
    (net net₂ : ArxivParams → Except String (List Paper))
    (hs : dget sid st.sessions = some s) (hid : s.id = sid)
    (hth : dget "thesis" s.agent_results = none) :
    runSearchCommand st sid net now = (none, st) ∧
    runSearchCommand st sid net now = runSearchCommand st sid net₂ now := by
  have hget : SessionManager.get_agent_result st s.id "thesis" = none := by
    simp [SessionManager.get_agent_result, hid, hs, hth]
  constructor <;>
    simp [runSearchCommand, SessionManager.get_session, hs, hget]

/-- C1 witness: the refusal evaluated on a concrete one-session store and
two concrete network oracles. -/
theorem search_refuses_without_thesis_witness :
    dget "s1" emptyState.sessions = some emptySession ∧
    emptySession.id = "s1" ∧
    dget "thesis" emptySession.agent_results = none ∧
    (runSearchCommand emptyState "s1"
        (fun _ => Except.ok [samplePaper]) 9 = (none, emptyState) ∧
     runSearchCommand emptyState "s1"
        (fun _ => Except.ok [samplePaper]) 9 =
       runSearchCommand emptyState "s1"
        (fun _ => Except.error "offline") 9) :=
  ⟨rfl, rfl, rfl,
   search_refuses_without_thesis emptyState "s1" emptySession 9
     (fun _ => Except.ok [samplePaper]) (fun _ => Except.error "offline")
     rfl rfl rfl⟩

/-- C1 counterexample: on a concrete session with no thesis result the
search command yields no Output whatsoever, refuting the claim that a
zero-confidence warning-carrying Output is returned; the network oracle
used here would even have succeeded. -/
theorem search_refusal_yields_no_output :
    ¬ ∃ out : RichOutput,
        (runSearchCommand emptyState "s1"
          (fun _ => Except.ok [samplePaper]) 9).1 = some out := by
  rintro ⟨out, hout⟩
  simp [runSearchCommand, SessionManager.get_session,
    SessionManager.get_agent_result, emptyState, emptySession, dget]
    at hout

/-- C2: exporting an existing session and importing the snapshot yields
a session with the same research_question and agent_results but a
different id, provided the freshly minted identifier differs from the
original one (the uuid4 freshness the code relies on). -/
theorem export_import_roundtrip (st : StoreState) (sid newId : String)
    (s : Session) (now₁ now₂ : Nat)
    (hs : dget sid st.sessions = some s) (hid : s.id = sid)
    (hnew : newId ≠ sid) :
    ∃ snap : Snapshot,
      SessionManager.export_session st now₁ sid = some snap ∧
      ∃ s₂ : Session,
        dget (SessionManager.import_session st now₂ newId snap).1
          (SessionManager.import_session st now₂ newId snap).2.sessions =
            some s₂ ∧
        s₂.research_question = s.research_question ∧
        s₂.agent_results = s.agent_results ∧
        s₂.id ≠ s.id := by
  refine ⟨{ data := s, export_timestamp := now₁, export_version := "1.0" },
    ?_, ?_⟩
  · simp [SessionManager.export_session, hs]
  · simp only [SessionManager.import_session]
    refine ⟨_, dget_dinsert_self newId _ st.sessions, rfl, rfl, ?_⟩
    show newId ≠ s.id
    rw [hid]
    exact hnew

/-- C2 witness: the round trip evaluated on a concrete session holding
two agent results. -/
theorem export_import_roundtrip_witness :
    dget "s1" mixedState.sessions = some mixedSession ∧
    mixedSession.id = "s1" ∧ ("s2" : String) ≠ "s1" ∧
    (∃ snap : Snapshot,
      SessionManager.export_session mixedState 7 "s1" = some snap ∧
      ∃ s₂ : Session,
        dget (SessionManager.import_session mixedState 8 "s2" snap).1
          (SessionManager.import_session mixedState 8 "s2" snap).2.sessions =
            some s₂ ∧
        s₂.research_question = mixedSession.research_question ∧
        s₂.agent_results = mixedSession.agent_results ∧
        s₂.id ≠ mixedSession.id) :=
  ⟨rfl, rfl, by simp,
   export_import_roundtrip mixedState "s1" "s2" mixedSession 7 8 rfl rfl
     (by simp)⟩

/-- C3: the cited agents never let an internal failure escape: a failing
LLM call in ThesisAgent yields a confidence-0 Output with a warning, a
document parser failing on every file leaves FileAgent with a
confidence-0.1 Output carrying one warning per file, and a missing
project record leaves MapAgent with a confidence-0 Output with a
warning. Each execute is a total function into RichOutput, so an Output
is returned for every input. -/
theorem agents_convert_failures (e q : String) (now : Nat)
    (paths : List String) (err : String → String) (pid : String) :
    ((ThesisAgent.execute (fun _ => Except.error e) q now).confidence = 0 ∧
     (ThesisAgent.execute (fun _ => Except.error e) q now).warnings ≠ []) ∧
    ((FileAgent.execute (fun p => Except.error (err p)) paths now).confidence
        = 1/10 ∧
     (FileAgent.execute (fun p => Except.error (err p)) paths
        now).warnings.length = paths.length) ∧
    ((MapAgent.execute (fun _ => none) pid now).confidence = 0 ∧
     (MapAgent.execute (fun _ => none) pid now).warnings ≠ []) := by
  have hall : FileAgent.processFiles (fun p => Except.error (err p)) paths =
      ([], paths.map (fun p => "Failed to parse " ++ p ++ ": " ++ err p)) := by
    induction paths with
    | nil => rfl
    | cons p rest ih => simp [FileAgent.processFiles, ih]
  refine ⟨⟨?_, ?_⟩, ⟨?_, ?_⟩, ?_, ?_⟩
  · simp [ThesisAgent.execute]
  · simp [ThesisAgent.execute]
  · simp [FileAgent.execute, hall]
  · simp [FileAgent.execute, hall]
  · simp [MapAgent.execute]
  · simp [MapAgent.execute]

/-- C4: on an existing session whose result map is empty, the statistics
are computed without any division error and report zero completed
agents, zero completion percentage and zero average confidence. -/
theorem stats_empty_results (st : StoreState) (sid : String) (s : Session)
    (hs : dget sid st.sessions = some s) (he : s.agent_results = []) :
    SessionManager.get_session_statistics st sid =
      some { total_agents := 7, completed_agents := 0,
             completion_percentage := 0, average_confidence := 0,
             last_update := s.updated_at, total_sources := 0,
             total_warnings := 0 } := by
  simp only [SessionManager.get_session_statistics, hs, he]
  norm_num [round1, round2, roundHalfEven]

/-- C4 witness: the statistics of a concrete empty session. -/
theorem stats_empty_results_witness :
    dget "s1" emptyState.sessions = some emptySession ∧
    SessionManager.get_session_statistics emptyState "s1" =
      some { total_agents := 7, completed_agents := 0,
             completion_percentage := 0, average_confidence := 0,
             last_update := 2, total_sources := 0, total_warnings := 0 } :=
  ⟨rfl, stats_empty_results emptyState "s1" emptySession rfl rfl⟩

/-- C5 (amended): average_confidence is the two-decimal rounding of the
mean confidence over all stored results, fallback Outputs included, and
zero when the result map is empty; it coincides with the
fallback-excluding mean exactly when no stored result is a fallback. -/
theorem average_confidence_over_all_results (st : StoreState)
    (sid : String) (s : Session) (hs : dget sid st.sessions = some s) :
    ∃ stats : SessionStats,
      SessionManager.get_session_statistics st sid = some stats ∧
      stats.average_confidence =
        round2 (averageConfidenceAll s.agent_results) ∧
      ((∀ kv ∈ s.agent_results, isFallback kv.2 = false) →
        stats.average_confidence =
          round2 (averageConfidenceExclFallback s.agent_results)) := by
  simp only [SessionManager.get_session_statistics, hs]
  refine ⟨_, rfl, rfl, ?_⟩
  intro hnofb
  have hfilter : s.agent_results.filter (fun kv => ! isFallback kv.2) =
      s.agent_results := by
    rw [List.filter_eq_self]
    intro kv hkv
    rw [hnofb kv hkv]
    rfl
  simp only [averageConfidenceExclFallback, hfilter, averageConfidenceAll]

/-- C5 witness: the amended statement evaluated on a concrete session
holding a fallback result and a strong result. -/
theorem average_confidence_over_all_results_witness :
    dget "s1" mixedState.sessions = some mixedSession ∧
    (∃ stats : SessionStats,
      SessionManager.get_session_statistics mixedState "s1" = some stats ∧
      stats.average_confidence =
        round2 (averageConfidenceAll mixedSession.agent_results) ∧
      ((∀ kv ∈ mixedSession.agent_results, isFallback kv.2 = false) →
        stats.average_confidence =
          round2 (averageConfidenceExclFallback
            mixedSession.agent_results))) :=
  ⟨rfl, average_confidence_over_all_results mixedState "s1" mixedSession rfl⟩

/-- C5 counterexample: a session holding a confidence-0 fallback thesis
Output and a confidence-0.9 search Output gets average_confidence 0.45,
while the fallback-excluding mean the claim describes is 0.9; the code
therefore does not exclude fallback Outputs from the mean. -/
theorem average_includes_fallback_outputs :
    (SessionManager.get_session_statistics mixedState "s1").map
        SessionStats.average_confidence = some (9/20) ∧
    averageConfidenceExclFallback mixedSession.agent_results = 9/10 ∧
    ((9 : Rat)/20) ≠ 9/10 := by
  refine ⟨?_, ?_, by norm_num⟩
  · simp only [SessionManager.get_session_statistics, mixedState,
      mixedSession, emptySession, fallbackThesisOutput, strongSearchOutput,
      ThesisAgent.execute, SearchAgent.execute, dget]
    norm_num [round2, roundHalfEven]
  · simp only [averageConfidenceExclFallback, mixedSession, emptySession,
      fallbackThesisOutput, strongSearchOutput, ThesisAgent.execute,
      SearchAgent.execute, isFallback]
    norm_num

/-- C6 (amended): each unparseable file contributes exactly one warning
and the Output still carries the successfully parsed subset as sources,
but the confidence is not proportional to the failure fraction: it is
0.95 whenever at least one file parsed and 0.1 when none did. -/
theorem file_batch_partial_failure (parse : String → Except String String)
    (paths : List String) (now : Nat) :
    (FileAgent.execute parse paths now).warnings.length =
      (paths.filter (fun p => !(parse p).isOk)).length ∧
    (FileAgent.execute parse paths now).sources =
      (paths.filter (fun p => (parse p).isOk)).map basename ∧
    (FileAgent.execute parse paths now).confidence =
      (if (paths.filter (fun p => (parse p).isOk)).isEmpty then 1/10
       else 95/100) := by
  have hlen : (FileAgent.processFiles parse paths).1.length =
      (paths.filter (fun p => (parse p).isOk)).length := by
    have h := congrArg List.length (processFiles_fst_filenames parse paths)
    simpa using h
  refine ⟨?_, ?_, ?_⟩
  · simpa [FileAgent.execute] using processFiles_snd_length parse paths
  · simpa [FileAgent.execute, List.map_map] using
      processFiles_fst_filenames parse paths
  · simp only [FileAgent.execute, List.isEmpty_iff_length_eq_zero, hlen]

/-- C6 counterexample: a two-file batch in which one file fails keeps the
full confidence 0.95 of an all-success batch while still recording the
per-file warning, so the confidence is not proportionally reduced by the
fraction of failures. -/
theorem file_confidence_not_proportional :
    (FileAgent.execute halfFailingParse ["a.pdf", "b.pdf"] 0).confidence =
      95/100 ∧
    (FileAgent.execute halfFailingParse ["a.pdf"] 0).confidence = 95/100 ∧
    (FileAgent.execute halfFailingParse ["a.pdf", "b.pdf"] 0).warnings =
      ["Failed to parse b.pdf: bad xref table"] := by
  refine ⟨?_, ?_, ?_⟩ <;>
    simp [FileAgent.execute, FileAgent.processFiles, halfFailingParse]

/-- C7: re-running an agent overwrites its stored Output: after two
saves under the same agent name, get_agent_result returns only the
second Output, and the result map still holds exactly one entry for
that agent. -/
theorem rerun_overwrites_result (st : StoreState) (now₁ now₂ : Nat)
    (sid name : String) (r₁ r₂ : RichOutput) (s : Session)
    (hs : dget sid st.sessions = some s)
    (hnd : (s.agent_results.map Prod.fst).Nodup) :
    SessionManager.get_agent_result
      (SessionManager.save_agent_result
        (SessionManager.save_agent_result st now₁ sid name r₁)
        now₂ sid name r₂) sid name = some r₂ ∧
    ∃ s₂ : Session,
      dget sid (SessionManager.save_agent_result
        (SessionManager.save_agent_result st now₁ sid name r₁)
        now₂ sid name r₂).sessions = some s₂ ∧
      s₂.agent_results.countP (fun kv => kv.1 == name) = 1 := by
  have h1 := save_agent_result_sessions st now₁ sid name r₁ s hs
  have hs1 : dget sid
      (SessionManager.save_agent_result st now₁ sid name r₁).sessions =
      some (SessionManager.updated_session s now₁ name r₁) := by
    rw [h1]
    exact dget_dinsert_self sid _ st.sessions
  have h2 := save_agent_result_sessions
    (SessionManager.save_agent_result st now₁ sid name r₁) now₂ sid name r₂
    (SessionManager.updated_session s now₁ name r₁) hs1
  have hs2 : dget sid
      (SessionManager.save_agent_result
        (SessionManager.save_agent_result st now₁ sid name r₁)
        now₂ sid name r₂).sessions =
      some (SessionManager.updated_session
        (SessionManager.updated_session s now₁ name r₁) now₂ name r₂) := by
    rw [h2]
    exact dget_dinsert_self sid _ _
  constructor
  · simp only [SessionManager.get_agent_result, hs2, Option.some_bind]
    exact dget_dinsert_self name r₂ _
  · refine ⟨_, hs2, ?_⟩
    exact countP_key_dinsert name r₂ _ (nodup_keys_dinsert name r₁ _ hnd)

/-- C7 witness: two saves under the thesis name on a concrete session,
followed by a lookup that sees only the second Output. -/
theorem rerun_overwrites_result_witness :
    dget "s1" emptyState.sessions = some emptySession ∧
    (SessionManager.get_agent_result
      (SessionManager.save_agent_result
        (SessionManager.save_agent_result emptyState 3 "s1" "thesis"
          fallbackThesisOutput)
        4 "s1" "thesis" strongSearchOutput) "s1" "thesis" =
        some strongSearchOutput ∧
     ∃ s₂ : Session,
      dget "s1" (SessionManager.save_agent_result
        (SessionManager.save_agent_result emptyState 3 "s1" "thesis"
          fallbackThesisOutput)
        4 "s1" "thesis" strongSearchOutput).sessions = some s₂ ∧
      s₂.agent_results.countP (fun kv => kv.1 == "thesis") = 1) :=
  ⟨rfl, rerun_overwrites_result emptyState 3 4 "s1" "thesis"
    fallbackThesisOutput strongSearchOutput emptySession rfl
    (by simp [emptySession])⟩

/-- C8: for a non-empty keyword list the one arXiv request carries the
boolean query that ANDs every keyword quoted as a phrase, asks for at
most the default 10 results, and sorts by relevance descending. -/
theorem search_query_ands_keywords (kws : List String) (hk : kws ≠ []) :
    SearchAgent.arxivParams kws defaultMaxResults =
      { search_query := andQuery kws, start := 0, max_results := 10,
        sortBy := "relevance", sortOrder := "descending" } := by
  have _ := hk
  simp only [SearchAgent.arxivParams, defaultMaxResults,
    searchTerms_eq_andQuery]

/-- C8 witness: the request parameters for a concrete two-keyword
list. -/
theorem search_query_ands_keywords_witness :
    (["deep learning", "protein folding"] : List String) ≠ [] ∧
    SearchAgent.arxivParams ["deep learning", "protein folding"]
        defaultMaxResults =
      { search_query := andQuery ["deep learning", "protein folding"],
        start := 0, max_results := 10, sortBy := "relevance",
        sortOrder := "descending" } :=
  ⟨by simp, search_query_ands_keywords ["deep learning", "protein folding"]
    (by simp)⟩

/-- C9: delete_session returns true and removes exactly the requested
session when it exists (other sessions and the project files are left
untouched), and returns false leaving the whole state unchanged when it
does not. -/
theorem delete_session_spec (st : StoreState) (sid : String)
    (hnd : (st.sessions.map Prod.fst).Nodup) :
    ((dget sid st.sessions).isSome = true →
      (SessionManager.delete_session st sid).1 = true ∧
      dget sid (SessionManager.delete_session st sid).2.sessions = none ∧
      (∀ k, k ≠ sid →
        dget k (SessionManager.delete_session st sid).2.sessions =
          dget k st.sessions) ∧
      (SessionManager.delete_session st sid).2.projects = st.projects) ∧
    ((dget sid st.sessions).isSome = false →
      SessionManager.delete_session st sid = (false, st)) := by
  constructor
  · intro h
    refine ⟨?_, ?_, ?_, ?_⟩
    · simp [SessionManager.delete_session, h]
    · simp only [SessionManager.delete_session, h, if_true]
      exact dget_ddel_self sid st.sessions hnd
    · intro k hk
      simp only [SessionManager.delete_session, h, if_true]
      exact dget_ddel_ne sid k st.sessions hk
    · simp [SessionManager.delete_session, h]
  · intro h
    simp [SessionManager.delete_session, h]

/-- C9 witness: deletion evaluated on a concrete one-session registry. -/
theorem delete_session_spec_witness :
    (emptyState.sessions.map Prod.fst).Nodup ∧
    ((dget "s1" emptyState.sessions).isSome = true →
      (SessionManager.delete_session emptyState "s1").1 = true ∧
      dget "s1" (SessionManager.delete_session emptyState "s1").2.sessions
        = none ∧
      (∀ k, k ≠ "s1" →
        dget k (SessionManager.delete_session emptyState "s1").2.sessions =
          dget k emptyState.sessions) ∧
      (SessionManager.delete_session emptyState "s1").2.projects =
        emptyState.projects) ∧
    ((dget "s1" emptyState.sessions).isSome = false →
      SessionManager.delete_session emptyState "s1" = (false, emptyState)) :=
  ⟨by simp [emptyState],
   delete_session_spec emptyState "s1" (by simp [emptyState])⟩

/-- C10: import_session stamps both created_at and updated_at with
the time of the call, ignoring the timestamps carried by the snapshot,
and when that time is strictly later than every stored session update
the freshly added session heads the updated_at-descending
list_sessions order. -/
theorem fresh_import_timestamps_sorts_first (st : StoreState)
    (newId : String) (snap : Snapshot) (now : Nat)
    (hfresh : dget newId st.sessions = none)
    (hmax : ∀ kv ∈ st.sessions, kv.2.updated_at < now) :
    ∃ s₂ : Session,
      dget newId
        (SessionManager.import_session st now newId snap).2.sessions =
          some s₂ ∧
      s₂.created_at = now ∧ s₂.updated_at = now ∧
      (SessionManager.list_sessions
        (SessionManager.import_session st now newId snap).2).head? =
        some { id := newId,
               title := "[IMPORTED] " ++ snap.data.title,
               research_question := snap.data.research_question,
               updated_at := now,
               agent_count := snap.data.agent_results.length } := by
  simp only [SessionManager.import_session]
  refine ⟨_, dget_dinsert_self newId _ st.sessions, rfl, rfl, ?_⟩
  rw [dinsert_fresh newId _ st.sessions hfresh]
  simp only [SessionManager.list_sessions, List.map_append, List.map_cons,
    List.map_nil]
  obtain ⟨t, ht⟩ := sortByUpdatedDesc_append_max
    { id := newId,
      title := "[IMPORTED] " ++ snap.data.title,
      research_question := snap.data.research_question,
      updated_at := now,
      agent_count := snap.data.agent_results.length }
    (st.sessions.map (fun kv =>
      ({ id := kv.1, title := kv.2.title,
         research_question := kv.2.research_question,
         updated_at := kv.2.updated_at,
         agent_count := kv.2.agent_results.length } : SessionSummary)))
    (by
      intro y hy
      obtain ⟨kv, hkv, rfl⟩ := List.mem_map.mp hy
      exact hmax kv hkv)
  rw [ht]
  rfl

/-- C10 witness: importing a snapshot with old timestamps at time 5 into
a registry whose only session was updated at time 2. -/
theorem fresh_import_timestamps_sorts_first_witness :
    dget "s2" emptyState.sessions = none ∧
    (∀ kv ∈ emptyState.sessions, kv.2.updated_at < 5) ∧
    (∃ s₂ : Session,
      dget "s2"
        (SessionManager.import_session emptyState 5 "s2"
          { data := emptySession, export_timestamp := 3,
            export_version := "1.0" }).2.sessions = some s₂ ∧
      s₂.created_at = 5 ∧ s₂.updated_at = 5 ∧
      (SessionManager.list_sessions
        (SessionManager.import_session emptyState 5 "s2"
          { data := emptySession, export_timestamp := 3,
            export_version := "1.0" }).2).head? =
        some { id := "s2", title := "[IMPORTED] " ++ "demo",
               research_question := "why", updated_at := 5,
               agent_count := 0 }) :=
  ⟨rfl, by simp [emptyState, emptySession],
   fresh_import_timestamps_sorts_first emptyState "s2"
     { data := emptySession, export_timestamp := 3, export_version := "1.0" }
     5 rfl (by simp [emptyState, emptySession])⟩
